import Mathlib

/-!
Verification of the report subcommand of pyani
(src/pyani/scripts/subcommands/subcmd_report.py).

The file embeds, as executable Lean definitions:
  * the output-format computation (lines 71-74 of the source),
  * the output-path naming for each reporting action,
  * the run-matrices branch (lines 207-229), including the Python
    name-binding semantics of the inner `for matname, args in [...]`
    loop, which rebinds the name `args`,
  * the ordering keys of the run/genome association queries,
and, modelled from the spec (their code lives in `pyani_db` /
`pyani_report`, outside the visible source):
  * `ANIResults` / BuildMatrices (sparse-to-dense matrix assembly), and
  * `write_dbtable` (one output file per requested format).

Theorems about the claims follow the definitions.
-/

/-- Command-line arguments consumed by `subcmd_report` (the `args`
namespace object): database path, output directory, the optional
comma-separated formats string and the optional comma-separated
run-identifier string of `--run_matrices`. -/
structure CmdArgs where
  dbpath : String
  outdir : String
  formats : Option String
  run_matrices : Option String
deriving DecidableEq

/-- Python `str.split(sep)` on the character list: every separator
occurrence cuts, empty fields are kept. -/
def pySplitAux (sep : Char) : List Char → List Char → List (List Char)
  | [], acc => [acc.reverse]
  | x :: xs, acc =>
    if x = sep then acc.reverse :: pySplitAux sep xs []
    else pySplitAux sep xs (x :: acc)

/-- Python `str.split(sep)`. -/
def pySplit (sep : Char) (s : String) : List String :=
  (pySplitAux sep s.data []).map List.asString

/-- Python `str.strip()`: drop leading and trailing whitespace. -/
def pyStrip (s : String) : String :=
  (((s.data.dropWhile Char.isWhitespace).reverse.dropWhile
      Char.isWhitespace).reverse).asString

/-- Lines 71-74 of the source: `formats = ["tab"]`, extended with the
stripped comma-separated tokens of `args.formats` when present, then
deduplicated (`list(set(formats))`; the set's iteration order is
arbitrary in Python, so only the underlying set is meaningful). -/
def computeFormats (argFormats : Option String) : List String :=
  (match argFormats with
   | some s => ["tab"] ++ (pySplit ',' s).map pyStrip
   | none => ["tab"]).dedup

/-- Model of `os.path.join(outdir, name)` for a relative name. -/
def joinPath (d f : String) : String := d ++ "/" ++ f

/-- Line 83: output name stem of the runs table. -/
def runsOutfname (outdir : String) : String := joinPath outdir "runs"

/-- Line 95: output name stem of the genomes table. -/
def genomesOutfname (outdir : String) : String := joinPath outdir "genomes"

/-- Line 111: output name stem of the runs/genomes association table. -/
def runsGenomesOutfname (outdir : String) : String := joinPath outdir "runs_genomes"

/-- Line 153: output name stem of the genomes/runs association table. -/
def genomesRunsOutfname (outdir : String) : String := joinPath outdir "genomes_runs"

/-- Lines 194-198: `"_".join([outfstem, str(run_id)])` with
`outfstem = os.path.join(args.outdir, "results")`. -/
def resultsOutfname (outdir run_id : String) : String :=
  String.intercalate "_" [joinPath outdir "results", run_id]

/-- Lines 208, 222: `"_".join([outfstem, matname, str(run_id)])` with
`outfstem = os.path.join(args.outdir, "matrix")`. -/
def matrixOutfname (outdir matname run_id : String) : String :=
  String.intercalate "_" [joinPath outdir "matrix", matname, run_id]

/-- One output file produced by the export primitive: its path, whether
row labels are emitted as a leading column, and the colour-scale
threshold actually applied (none when the format has no styling). -/
structure OutFile where
  path : String
  show_index : Bool
  styled : Option ℚ
deriving DecidableEq

/-- Modelled from the spec: the format-appropriate file extension used
by `pyani_report.write_dbtable` (not under src/): a spreadsheet workbook
gets a workbook extension, every other token is used as its own
extension. -/
def fmtExt (fmt : String) : String := if fmt = "excel" then "xlsx" else fmt

/-- Modelled from the spec: `pyani_report.write_dbtable` (not under
src/). It serializes one result once per requested format to
`pathStem.<ext>`; `show_index` defaults to false; the colour-scale
threshold is applied only by formats with cell styling (spreadsheet,
hypertext) and is a silent no-op for the others. -/
def write_dbtable (pathStem : String) (formats : List String)
    (show_index : Bool := false) (colour_num : Option ℚ := none) : List OutFile :=
  formats.map fun fmt =>
    { path := pathStem ++ "." ++ fmtExt fmt
      show_index := show_index
      styled := if fmt = "excel" ∨ fmt = "html" then colour_num else none }

/-- Lines 214-220 of the source: the per-metric option dictionaries of
the matrix loop, in order (`0.95` written as the rational `95/100`). -/
def metricOpts : List (String × Option ℚ) :=
  [("identity", some (95/100)), ("coverage", some (95/100)),
   ("aln_lengths", none), ("sim_errors", none), ("hadamard", none)]

/-- One call to `pyani_report.write_dbtable` made by the matrix branch:
output name, metric name, formats, `show_index=True`, and the splatted
`colour_num` option (none when the metric's option dict is empty). -/
structure ExportCall where
  outfname : String
  matname : String
  formats : List String
  show_index : Bool
  colour_num : Option ℚ
deriving DecidableEq

/-- The five export calls the inner metric loop performs for one run. -/
def runExportCalls (outfstem run_id : String) (formats : List String) :
    List ExportCall :=
  metricOpts.map fun mo =>
    { outfname := String.intercalate "_" [outfstem, mo.1, run_id]
      matname := mo.1
      formats := formats
      show_index := true
      colour_num := mo.2 }

/-- A Python exception raised by the modelled branch. -/
inductive PyErr
  | attributeError (msg : String)
deriving DecidableEq

/-- What the Python name `args` is bound to at a given moment inside
`subcmd_report`: initially the command-line namespace object, but the
inner loop header `for matname, args in [...]` rebinds it to a
metric-option dictionary. -/
inductive ArgsBinding
  | cmd (a : CmdArgs)
  | optdict (colour_num : Option ℚ)
deriving DecidableEq

/-- Evaluation of the attribute access `args.dbpath` (line 213): it
succeeds on the namespace object and raises `AttributeError` on a plain
dictionary. -/
def getattrDbpath : ArgsBinding → Except PyErr String
  | .cmd a => .ok a.dbpath
  | .optdict _ => .error (.attributeError "dict object has no attribute dbpath")

/-- Line 209: the stripped comma-separated run identifiers. -/
def runIdsOf (s : String) : List String := (pySplit ',' s).map pyStrip

/-- One iteration of the inner metric loop (lines 214-229): the loop
header rebinds `args` to the metric's option dictionary, then the body
appends one `write_dbtable` call. -/
def innerStep (outfstem run_id : String) (formats : List String)
    (st : ArgsBinding × List ExportCall) (mo : String × Option ℚ) :
    ArgsBinding × List ExportCall :=
  (ArgsBinding.optdict mo.2,
   st.2 ++ [{ outfname := String.intercalate "_" [outfstem, mo.1, run_id]
              matname := mo.1
              formats := formats
              show_index := true
              colour_num := mo.2 }])

/-- One iteration of the outer per-run loop (lines 211-229). A pending
exception propagates (the loop is aborted). Otherwise the body reads
`args.dbpath` to build `ANIResults` — raising `AttributeError` when
`args` is a metric dictionary left over from the previous iteration —
and then runs the inner metric loop. -/
def outerStep (outfstem : String) (formats : List String)
    (st : ArgsBinding × List ExportCall × Option PyErr) (run_id : String) :
    ArgsBinding × List ExportCall × Option PyErr :=
  match st with
  | (argsb, calls, some e) => (argsb, calls, some e)
  | (argsb, calls, none) =>
    match getattrDbpath argsb with
    | .error e => (argsb, calls, some e)
    | .ok _dbpath =>
      let p := metricOpts.foldl (innerStep outfstem run_id formats) (argsb, calls)
      (p.1, p.2, none)

/-- The whole `if args.run_matrices:` branch (lines 207-229): computes
the output stem and the run identifiers, then iterates `outerStep` over
the runs starting from the command-line `args` binding. Returns the
export calls actually made and the exception, if one was raised. -/
def runMatricesBranch (a : CmdArgs) : List ExportCall × Option PyErr :=
  match a.run_matrices with
  | none => ([], none)
  | some s =>
    let formats := computeFormats a.formats
    let outfstem := joinPath a.outdir "matrix"
    let res := (runIdsOf s).foldl (outerStep outfstem formats)
      (ArgsBinding.cmd a, [], none)
    (res.2.1, res.2.2)

/-- Modelled from the spec: one directed pairwise comparison record for
a run, as consumed by `pyani_db.ANIResults` (not under src/): query and
subject genome identifiers and the persisted metrics. -/
structure ComparisonRecord where
  query : Nat
  subject : Nat
  identity : ℚ
  coverage : ℚ
  aln_length : Nat
  sim_errors : Nat
deriving DecidableEq

/-- A square metric matrix keyed by genome identifiers; `none` is the
missing sentinel (not-a-number in the pandas implementation). -/
def Mat : Type := Nat → Nat → Option ℚ

/-- The all-missing matrix every metric starts from. -/
def emptyMatrix : Mat := fun _ _ => none

/-- Write one cell of a matrix. -/
def updateCell (m : Mat) (i j : Nat) (v : ℚ) : Mat :=
  fun x y => if x = i ∧ y = j then some v else m x y

/-- Modelled from the spec: one record's contribution to a metric
matrix — write the forward cell, and mirror it into the reverse cell
when the metric is declared symmetric. -/
def buildStep (sym : Bool) (value : ComparisonRecord → ℚ) (m : Mat)
    (r : ComparisonRecord) : Mat :=
  let m1 := updateCell m r.query r.subject (value r)
  if sym then updateCell m1 r.subject r.query (value r) else m1

/-- Modelled from the spec: assemble one metric's matrix from the sparse
records, starting from the all-missing matrix. -/
def buildMetric (sym : Bool) (value : ComparisonRecord → ℚ)
    (records : List ComparisonRecord) : Mat :=
  records.foldl (buildStep sym value) emptyMatrix

/-- Modelled from the spec: the Hadamard matrix is the elementwise
product of identity and coverage, a missing operand propagating the
missing sentinel (never zero). -/
def hadamardOf (idm cov : Mat) : Mat := fun i j =>
  match idm i j, cov i j with
  | some a, some b => some (a * b)
  | _, _ => none

/-- Modelled from the spec: the five matrices held by
`pyani_db.ANIResults` (not under src/). -/
structure ANIResults where
  identity : Mat
  coverage : Mat
  aln_lengths : Mat
  sim_errors : Mat
  hadamard : Mat

/-- Modelled from the spec: BuildMatrices. Identity, aligned length and
similarity errors are declared symmetric and mirrored; coverage is
declared asymmetric, only its forward cell is written; the Hadamard
matrix is derived elementwise from identity and coverage. -/
def buildMatrices (records : List ComparisonRecord) : ANIResults :=
  let idm := buildMetric true (fun r => r.identity) records
  let cov := buildMetric false (fun r => r.coverage) records
  { identity := idm
    coverage := cov
    aln_lengths := buildMetric true (fun r => (r.aln_length : ℚ)) records
    sim_errors := buildMetric true (fun r => (r.sim_errors : ℚ)) records
    hadamard := hadamardOf idm cov }

/-- The spec's concrete scenario record: `(query=10, subject=11,
identity=0.97, coverage=0.88, alnLength=500, simErrors=3)`. -/
def rec0 : ComparisonRecord :=
  { query := 10, subject := 11, identity := 97/100, coverage := 88/100
    aln_length := 500, sim_errors := 3 }

/-- One joined row of the run/genome association listings (lines 118-134
and 159-175): the `LabelMembership` keys plus the joined run and genome
fields that the report selects. -/
structure AssocRow where
  run_id : Nat
  genome_id : Nat
  run_name : String
  method : String
  date : String
  description : String
  path : String
  genome_hash : String
  label : String
  class_label : String
deriving DecidableEq

/-- The ordering key of `order_by(Run.run_id, Genome.genome_id)`:
run identifier first, genome identifier as tie-break. -/
def rgLe (a b : AssocRow) : Prop :=
  a.run_id < b.run_id ∨ (a.run_id = b.run_id ∧ a.genome_id ≤ b.genome_id)

/-- The ordering key of `order_by(Genome.genome_id, Run.run_id)`:
genome identifier first, run identifier as tie-break. -/
def grLe (a b : AssocRow) : Prop :=
  a.genome_id < b.genome_id ∨ (a.genome_id = b.genome_id ∧ a.run_id ≤ b.run_id)

instance : DecidableRel rgLe := fun a b => by
  unfold rgLe; infer_instance

instance : DecidableRel grLe := fun a b => by
  unfold grLe; infer_instance

instance : IsTotal AssocRow rgLe where
  total a b := by unfold rgLe; omega

instance : IsTotal AssocRow grLe where
  total a b := by unfold grLe; omega

instance : IsTrans AssocRow rgLe where
  trans a b c := by unfold rgLe; omega

instance : IsTrans AssocRow grLe where
  trans a b c := by unfold grLe; omega

/-- Lines 118-134: the `runs_genomes` query. The ORDER BY executed by
the database engine is modelled as sorting the joined rows by the
stated key. -/
def runsGenomesQuery (rows : List AssocRow) : List AssocRow :=
  List.insertionSort rgLe rows

/-- Lines 159-175: the inverse `genomes_runs` query, ordered by genome
then run. -/
def genomesRunsQuery (rows : List AssocRow) : List AssocRow :=
  List.insertionSort grLe rows

/-! ## Helper lemmas -/

/-- The inner metric loop, from any starting binding and call list,
leaves `args` bound to the last metric's option dictionary (the empty
dict of `hadamard`) and appends the five per-metric export calls. -/
theorem innerLoop_eq (o r : String) (fm : List String) (b : ArgsBinding)
    (cs : List ExportCall) :
    metricOpts.foldl (innerStep o r fm) (b, cs)
      = (ArgsBinding.optdict none, cs ++ runExportCalls o r fm) := by
  simp [metricOpts, innerStep, runExportCalls]

/-- An outer iteration that starts from the command-line `args` binding
succeeds and performs the five export calls for its run. -/
theorem outerStep_ok (o : String) (fm : List String) (a : CmdArgs)
    (cs : List ExportCall) (r : String) :
    outerStep o fm (ArgsBinding.cmd a, cs, none) r
      = (ArgsBinding.optdict none, cs ++ runExportCalls o r fm, none) := by
  simp [outerStep, getattrDbpath, innerLoop_eq]

/-- An outer iteration that starts with `args` bound to a metric
dictionary raises `AttributeError` on the `args.dbpath` access. -/
theorem outerStep_dict (o : String) (fm : List String) (cn : Option ℚ)
    (cs : List ExportCall) (r : String) :
    outerStep o fm (ArgsBinding.optdict cn, cs, none) r
      = (ArgsBinding.optdict cn, cs,
         some (PyErr.attributeError "dict object has no attribute dbpath")) := by
  simp [outerStep, getattrDbpath]

/-- A raised exception aborts the remaining outer iterations. -/
theorem foldl_outerStep_err (o : String) (fm : List String) :
    ∀ (l : List String) (b : ArgsBinding) (cs : List ExportCall) (e : PyErr),
      List.foldl (outerStep o fm) (b, cs, some e) l = (b, cs, some e)
  | [], _, _, _ => rfl
  | _ :: l, b, cs, e => by
    rw [List.foldl_cons]
    exact foldl_outerStep_err o fm l b cs e

/-- Mirrored double update preserves symmetry of a matrix. -/
theorem updateCell_pair_symm (m : Mat) (q s : Nat) (v : ℚ)
    (hm : ∀ x y, m x y = m y x) (x y : Nat) :
    updateCell (updateCell m q s v) s q v x y
      = updateCell (updateCell m q s v) s q v y x := by
  unfold updateCell
  split_ifs with h1 h2 h3 h4 <;> first
    | rfl
    | exact hm x y
    | tauto

/-- Folding mirrored updates over any record list preserves symmetry. -/
theorem foldl_buildStep_symm (value : ComparisonRecord → ℚ) :
    ∀ (records : List ComparisonRecord) (m : Mat),
      (∀ x y, m x y = m y x) → ∀ x y,
        (records.foldl (buildStep true value) m) x y
          = (records.foldl (buildStep true value) m) y x
  | [], _, hm, x, y => hm x y
  | r :: rs, m, hm, x, y => by
    rw [List.foldl_cons]
    exact foldl_buildStep_symm value rs (buildStep true value m r)
      (fun x y => updateCell_pair_symm m r.query r.subject (value r) hm x y) x y

/-- Every metric assembled with mirroring yields a symmetric matrix. -/
theorem buildMetric_true_symm (value : ComparisonRecord → ℚ)
    (records : List ComparisonRecord) (x y : Nat) :
    buildMetric true value records x y = buildMetric true value records y x :=
  foldl_buildStep_symm value records emptyMatrix (fun _ _ => rfl) x y

/-! ## Claim theorems -/

/-- C1: the claimed independence of per-run matrix exports does not hold
on the code. Exporting the first run's matrices leaves the name `args`
bound to the last metric's option dictionary rather than the command
arguments, and the next run's extraction, which reads `args.dbpath`,
then raises `AttributeError`: the per-run export calls do share mutable
state (the `args` binding). Evaluated at a concrete two-run
invocation. -/
theorem args_rebound_after_first_run :
    (outerStep (joinPath "o" "matrix") (computeFormats none)
        (ArgsBinding.cmd { dbpath := "db", outdir := "o", formats := none,
                           run_matrices := some "1,2" }, [], none) "1").1
      = ArgsBinding.optdict none
    ∧ ArgsBinding.optdict none
        ≠ ArgsBinding.cmd { dbpath := "db", outdir := "o", formats := none,
                            run_matrices := some "1,2" }
    ∧ getattrDbpath (ArgsBinding.optdict none)
        = .error (.attributeError "dict object has no attribute dbpath") :=
  ⟨by rw [outerStep_ok], by decide, rfl⟩

/-- C2: the set of formats used is the union of the implicit default
`tab` with the stripped comma-separated caller tokens, duplicates
removed; `"tab,excel,tab"` yields exactly the set `{tab, excel}`, and
the export primitive then produces exactly two output files per
exported result. -/
theorem formats_dedup_spec :
    (∀ s : String, (computeFormats (some s)).toFinset
        = insert "tab" (((pySplit ',' s).map pyStrip).toFinset))
    ∧ (computeFormats (some "tab,excel,tab")).toFinset = {"tab", "excel"}
    ∧ ∀ (stem : String) (si : Bool) (cn : Option ℚ),
        (write_dbtable stem (computeFormats (some "tab,excel,tab")) si cn).length
          = 2 := by
  refine ⟨fun s => ?_, ?_, fun stem si cn => ?_⟩
  · ext x
    simp [computeFormats, List.mem_dedup]
  · rw [show computeFormats (some "tab,excel,tab") = ["excel", "tab"] from by decide]
    ext x
    simp [or_comm]
  · rw [write_dbtable, List.length_map,
      show computeFormats (some "tab,excel,tab") = ["excel", "tab"] from by decide]
    rfl

/-- C3 counterexample: the Hadamard matrix is one of the metrics the
claim declares symmetric, yet on the spec's own scenario record
(query 10, subject 11) its forward cell is populated while its reverse
cell is the missing sentinel, because its coverage operand is only
written in the forward direction. -/
theorem hadamard_not_symmetric_cex :
    (buildMatrices [rec0]).hadamard 10 11 ≠ (buildMatrices [rec0]).hadamard 11 10 := by
  decide

/-- C3 (amended): the matrices populated by mirroring the single
directed comparison record — identity, aligned length and similarity
errors — are symmetric: for all records and indices,
matrix[i][j] = matrix[j][i]. (The Hadamard matrix, derived from the
asymmetric coverage operand, is excluded.) -/
theorem mirrored_metrics_symmetric (records : List ComparisonRecord) (i j : Nat) :
    (buildMatrices records).identity i j = (buildMatrices records).identity j i
    ∧ (buildMatrices records).aln_lengths i j
        = (buildMatrices records).aln_lengths j i
    ∧ (buildMatrices records).sim_errors i j
        = (buildMatrices records).sim_errors j i :=
  ⟨buildMetric_true_symm (fun r => r.identity) records i j,
   buildMetric_true_symm (fun r => (r.aln_length : ℚ)) records i j,
   buildMetric_true_symm (fun r => (r.sim_errors : ℚ)) records i j⟩

/-- C4: each Hadamard cell equals the product of the identity and
coverage cells when both are populated, and is the missing sentinel
(never zero) when either operand is missing. -/
theorem hadamard_cellwise (records : List ComparisonRecord) (i j : Nat) :
    (∀ a b : ℚ, (buildMatrices records).identity i j = some a →
        (buildMatrices records).coverage i j = some b →
        (buildMatrices records).hadamard i j = some (a * b))
    ∧ ((buildMatrices records).identity i j = none
        ∨ (buildMatrices records).coverage i j = none →
        (buildMatrices records).hadamard i j = none) := by
  constructor
  · intro a b ha hb
    simp only [buildMatrices] at ha hb ⊢
    simp [hadamardOf, ha, hb]
  · intro h
    simp only [buildMatrices] at h ⊢
    rcases h with h | h
    · simp [hadamardOf, h]
    · cases hid : buildMetric true (fun r => r.identity) records i j <;>
        simp [hadamardOf, h, hid]

/-- C4 witness: on the spec's scenario record, the forward Hadamard
cell is the product 0.97 × 0.88 and the reverse cell is missing. -/
theorem hadamard_cellwise_witness :
    (buildMatrices [rec0]).hadamard 10 11 = some ((97/100 : ℚ) * (88/100))
    ∧ (buildMatrices [rec0]).hadamard 11 10 = none :=
  ⟨(hadamard_cellwise [rec0] 10 11).1 (97/100) (88/100)
      (by simp [buildMatrices, buildMetric, buildStep, updateCell, emptyMatrix, rec0])
      (by simp [buildMatrices, buildMetric, buildStep, updateCell, emptyMatrix, rec0]),
   (hadamard_cellwise [rec0] 11 10).2 (Or.inr (by decide))⟩

/-- C5: a single-run invocation exports exactly the five matrices
(identity, coverage, aligned lengths, similarity errors, Hadamard), one
call per metric; but on the two-run invocation `"7,8"` only the first
run's five matrices are ever written — the second run's extraction
raises `AttributeError` (the rebound `args`), so run 8 gets no
matrices, contradicting "five matrices for every requested run". -/
theorem five_matrices_only_first_run :
    runMatricesBranch { dbpath := "db", outdir := "out", formats := none,
                        run_matrices := some "7" }
      = (runExportCalls "out/matrix" "7" ["tab"], none)
    ∧ runMatricesBranch { dbpath := "db", outdir := "out", formats := none,
                          run_matrices := some "7,8" }
      = (runExportCalls "out/matrix" "7" ["tab"],
         some (PyErr.attributeError "dict object has no attribute dbpath"))
    ∧ (runExportCalls "out/matrix" "7" ["tab"]).map ExportCall.matname
      = ["identity", "coverage", "aln_lengths", "sim_errors", "hadamard"] :=
  ⟨rfl, rfl, rfl⟩

/-- C6: output naming follows the convention — a bare stem for the four
flat tables, stem-underscore-metric-underscore-run for per-run matrices,
and stem-underscore-run for per-run comparison dumps; the matrix
branch's five export calls use exactly the matrix pattern. -/
theorem output_naming_convention (outdir matname run_id : String)
    (formats_ : List String) :
    runsOutfname outdir = joinPath outdir "runs"
    ∧ genomesOutfname outdir = joinPath outdir "genomes"
    ∧ runsGenomesOutfname outdir = joinPath outdir "runs_genomes"
    ∧ genomesRunsOutfname outdir = joinPath outdir "genomes_runs"
    ∧ resultsOutfname outdir run_id = joinPath outdir "results" ++ "_" ++ run_id
    ∧ matrixOutfname outdir matname run_id
        = joinPath outdir "matrix" ++ "_" ++ matname ++ "_" ++ run_id
    ∧ (runExportCalls (joinPath outdir "matrix") run_id formats_).map
          ExportCall.outfname
        = [matrixOutfname outdir "identity" run_id,
           matrixOutfname outdir "coverage" run_id,
           matrixOutfname outdir "aln_lengths" run_id,
           matrixOutfname outdir "sim_errors" run_id,
           matrixOutfname outdir "hadamard" run_id] :=
  ⟨rfl, rfl, rfl, rfl, rfl, rfl, rfl⟩

/-- C7: in the matrix branch a colour-scale threshold of 0.95 is
supplied exactly for the identity and coverage matrices and for no
other metric; and for the plain-text format, a supplied threshold is a
silent no-op (no styling, no error). -/
theorem colour_threshold_spec (outfstem run_id : String) (formats_ : List String) :
    (∀ c ∈ runExportCalls outfstem run_id formats_,
        (c.colour_num = some (95/100)
          ↔ (c.matname = "identity" ∨ c.matname = "coverage")))
    ∧ ∀ (stem : String) (si : Bool) (cn : Option ℚ),
        ∀ f ∈ write_dbtable stem ["tab"] si cn, f.styled = none := by
  constructor
  · intro c hc
    simp only [runExportCalls, metricOpts, List.map_cons, List.map_nil,
      List.mem_cons, List.not_mem_nil, or_false] at hc
    rcases hc with rfl | rfl | rfl | rfl | rfl <;> simp
  · intro stem si cn f hf
    simp only [write_dbtable, List.map_cons, List.map_nil, List.mem_cons,
      List.not_mem_nil, or_false] at hf
    subst hf
    simp

/-- C7 witness: the identity matrix's export call carries the 0.95
threshold, and a plain-text output file stays unstyled even when a
threshold is supplied. -/
theorem colour_threshold_spec_witness :
    (some (95/100 : ℚ) = some (95/100 : ℚ)
      ↔ (("identity" : String) = "identity" ∨ ("identity" : String) = "coverage"))
    ∧ ({ path := "s" ++ "." ++ "tab", show_index := false,
         styled := none } : OutFile).styled = none :=
  ⟨(colour_threshold_spec "m" "1" ["tab"]).1
      { outfname := String.intercalate "_" ["m", "identity", "1"]
        matname := "identity", formats := ["tab"], show_index := true
        colour_num := some (95/100) }
      (List.mem_cons_self _ _),
   (colour_threshold_spec "m" "1" ["tab"]).2 "s" false (some (95/100)) _
      (List.mem_cons_self _ _)⟩

/-- C8: every export call of the matrix branch passes
`show_index=True`, while the flat-table export calls leave the option
at its false default, so their output files carry no leading label
column. -/
theorem show_index_convention (outfstem run_id stem : String)
    (formats_ : List String) :
    (∀ c ∈ runExportCalls outfstem run_id formats_, c.show_index = true)
    ∧ ∀ f ∈ write_dbtable stem formats_, f.show_index = false := by
  constructor
  · intro c hc
    simp only [runExportCalls, List.mem_map] at hc
    obtain ⟨mo, -, rfl⟩ := hc
    rfl
  · intro f hf
    simp only [write_dbtable, List.mem_map] at hf
    obtain ⟨fmt, -, rfl⟩ := hf
    rfl

/-- C8 witness: the concrete identity-matrix call of a run has the
index column enabled, and a concrete flat-table output file has it
disabled. -/
theorem show_index_convention_witness :
    ({ outfname := String.intercalate "_" ["w", "identity", "3"]
       matname := "identity", formats := ["tab"], show_index := true
       colour_num := some (95/100) } : ExportCall).show_index = true
    ∧ ({ path := "t" ++ "." ++ "tab", show_index := false,
         styled := none } : OutFile).show_index = false :=
  ⟨(show_index_convention "w" "3" "t" ["tab"]).1 _ (List.mem_cons_self _ _),
   (show_index_convention "w" "3" "t" ["tab"]).2 _ (List.mem_cons_self _ _)⟩

/-- C9: the run/genome association listing is sorted by run identifier
then genome identifier, the inverse listing by genome identifier then
run identifier, and both are permutations of the joined rows. -/
theorem association_listing_order (rows : List AssocRow) :
    (runsGenomesQuery rows).Sorted rgLe
    ∧ (genomesRunsQuery rows).Sorted grLe
    ∧ (runsGenomesQuery rows).Perm rows
    ∧ (genomesRunsQuery rows).Perm rows :=
  ⟨List.sorted_insertionSort rgLe rows, List.sorted_insertionSort grLe rows,
   List.perm_insertionSort rgLe rows, List.perm_insertionSort grLe rows⟩

/-- C10: whenever two or more run identifiers are requested, the matrix
branch exports only the first run's five matrices: the inner metric
loop has rebound `args` to the last metric-option dictionary, so the
second run's `args.dbpath` read raises `AttributeError` instead of
producing that run's matrices. -/
theorem args_shadowing_fails_later_runs (a : CmdArgs) (s r1 r2 : String)
    (rest : List String) (ha : a.run_matrices = some s)
    (hids : runIdsOf s = r1 :: r2 :: rest) :
    runMatricesBranch a
      = (runExportCalls (joinPath a.outdir "matrix") r1 (computeFormats a.formats),
         some (PyErr.attributeError "dict object has no attribute dbpath")) := by
  simp only [runMatricesBranch, ha, hids]
  rw [List.foldl_cons, outerStep_ok, List.foldl_cons, outerStep_dict,
    foldl_outerStep_err]
  simp

/-- C10 witness: the two-run invocation `--run_matrices "1,2"` exports
run 1's five matrices and then fails with `AttributeError`. -/
theorem args_shadowing_fails_later_runs_witness :
    runMatricesBranch { dbpath := "db", outdir := "out", formats := none,
                        run_matrices := some "1,2" }
      = (runExportCalls (joinPath "out" "matrix") "1" (computeFormats none),
         some (PyErr.attributeError "dict object has no attribute dbpath")) :=
  args_shadowing_fails_later_runs
    { dbpath := "db", outdir := "out", formats := none,
      run_matrices := some "1,2" }
    "1,2" "1" "2" [] rfl (by decide)
